import Mathlib

/-!
Verification of the session-relay core of `lib/mcp-api-handler.ts`.

The development shallowly embeds the handler's data model and operations:

* `SerializedRequest` / `RelayedResponse` mirror the wire shapes
  `{requestId, url, method, body, headers}` and `{status, body}`.
* `Payload` models a raw pub/sub payload: either the JSON serialization of a
  `SerializedRequest` (a `JSON.parse` that succeeds) or a malformed string
  (a `JSON.parse` that throws).
* `createFakeIncomingMessage` mirrors the synthetic-request builder,
  including the JavaScript truthiness test `if (body)` (null and the empty
  string are falsy).
* `handleMessage` mirrors the per-message subscriber of the `/sse` branch:
  decode, replay through the protocol handler against a synthetic response
  sink recording the last `writeHead` status and last `end` body
  (defaults 100 and the empty string), then publish exactly one response.
  A rejection anywhere (decode failure, handler raise) is an `Except.error`
  and publishes nothing.
* `mcpApiHandler` / `messageBranch` mirror the route dispatch and the
  `/message` outbound-relay branch as a trace of effects.
* `WaitState` / `stepWait` mirror the outbound wait: the response
  subscription callback, the 10-second timeout callback and the response
  close handler, each atomic on the single-threaded event loop.
* `SessState` / `applySessTrigger` mirror the `/sse` session lifecycle:
  the deadline timer and the client-disconnect handler both resolve a
  single-resolution promise cell; `server.server.onclose` only filters the
  session out of the `servers` array.
-/

/-- Wire shape of a relayed message, from interface `SerializedRequest`:
`{requestId, url, method, body, headers}`. Headers are modelled as an
association list of string pairs. -/
structure SerializedRequest where
  requestId : String
  url : String
  method : String
  body : String
  headers : List (String × String)
deriving Repr, DecidableEq

/-- Wire shape of a relayed response: `{status, body}`. -/
structure RelayedResponse where
  status : Nat
  body : String
deriving Repr, DecidableEq

/-- A raw pub/sub payload: either the JSON serialization of a
`SerializedRequest` (on which `JSON.parse` succeeds and yields the record
back) or a malformed string (on which `JSON.parse` throws). -/
inductive Payload where
  | json (r : SerializedRequest)
  | malformed (raw : String)
deriving Repr, DecidableEq

/-- `JSON.parse` on a payload: the serialization round-trips, a malformed
payload throws (modelled as `Except.error`). -/
def decodePayload : Payload → Except String SerializedRequest
  | Payload.json r => Except.ok r
  | Payload.malformed _ => Except.error "DecodeError"

/-- The synthetic inbound request built by `createFakeIncomingMessage`:
its method, url and headers fields, the chunks pushed onto the underlying
readable stream, and whether `push(null)` (end-of-stream) was signalled. -/
structure FakeIncomingMessage where
  method : String
  url : String
  headers : List (String × String)
  chunks : List String
  ended : Bool
deriving Repr, DecidableEq

/-- JavaScript truthiness of the `body` option: `null` and the empty string
are falsy; any non-empty string is truthy. -/
def bodyTruthy : Option String → Bool
  | Option.none => false
  | Option.some s => s ≠ ""

/-- `createFakeIncomingMessage` from `lib/mcp-api-handler.ts`: copies
method, url and headers verbatim; then `if (body) { readable.push(body);
readable.push(null) }` — both the body push and the end-of-stream signal
happen only when `body` is truthy. -/
def createFakeIncomingMessage (method url : String)
    (headers : List (String × String)) (body : Option String) :
    FakeIncomingMessage :=
  if bodyTruthy body then
    { method := method, url := url, headers := headers,
      chunks := [body.getD ""], ended := true }
  else
    { method := method, url := url, headers := headers,
      chunks := [], ended := false }

/-- The whole content readable from the synthetic request's stream. -/
def streamContents (m : FakeIncomingMessage) : String :=
  m.chunks.foldl (fun a c => a ++ c) ""

/-- One call the protocol handler makes on the synthetic response sink:
`writeHead(statusCode)` or `end(body)`. -/
inductive ResEvent where
  | writeHead (status : Nat)
  | endBody (body : String)
deriving Repr, DecidableEq

/-- Outcome of `transport.handlePostMessage(req, syntheticRes)`: the
handler performs a sequence of sink calls and then either returns normally
or raises (the calls made before raising are recorded too). -/
inductive HandlerOutcome where
  | returns (writes : List ResEvent)
  | raises (writes : List ResEvent)
deriving Repr, DecidableEq

/-- One sink call applied to the recorded `(status, body)` pair: each
`writeHead` overwrites the status, each `end` overwrites the body. -/
def sinkStep (st : Nat × String) (e : ResEvent) : Nat × String :=
  match e with
  | ResEvent.writeHead n => (n, st.2)
  | ResEvent.endBody b => (st.1, b)

/-- The synthetic response sink: start from `status = 100`, `body = ""`
and replay the handler's calls in order. -/
def runSink (writes : List ResEvent) : Nat × String :=
  writes.foldl sinkStep (100, "")

/-- Last element of a list, or a default when the list is empty. -/
def lastWith {α : Type} (d : α) : List α → α
  | [] => d
  | x :: rest => lastWith x rest

/-- The statuses passed to `writeHead`, in call order. -/
def statusWrites (writes : List ResEvent) : List Nat :=
  writes.filterMap fun e =>
    match e with
    | ResEvent.writeHead n => Option.some n
    | ResEvent.endBody _ => Option.none

/-- The bodies passed to `end`, in call order. -/
def bodyWrites (writes : List ResEvent) : List String :=
  writes.filterMap fun e =>
    match e with
    | ResEvent.writeHead _ => Option.none
    | ResEvent.endBody b => Option.some b

/-- The last status the handler wrote, defaulting to 100. -/
def lastStatus (writes : List ResEvent) : Nat :=
  lastWith 100 (statusWrites writes)

/-- The last body the handler wrote, defaulting to the empty string. -/
def lastBody (writes : List ResEvent) : String :=
  lastWith "" (bodyWrites writes)

/-- One publish performed on the broker: topic and response payload. -/
structure Publish where
  topic : String
  response : RelayedResponse
deriving Repr, DecidableEq

/-- The `/sse` branch's per-message subscriber `handleMessage`:
`JSON.parse` the payload (a throw rejects the async function — no
publish); build the synthetic request from the decoded message's method,
url, headers and body; replay it through the protocol handler against the
synthetic sink; if the handler raises, the `await` rejects and the publish
is skipped; otherwise publish exactly one response on
`responses:{sessionId}:{requestId}` carrying the sink's final status and
body. -/
def handleMessage (handler : FakeIncomingMessage → HandlerOutcome)
    (sessionId : String) (message : Payload) :
    Except String (List Publish) :=
  match decodePayload message with
  | Except.error e => Except.error e
  | Except.ok request =>
    let req := createFakeIncomingMessage request.method request.url
      request.headers (Option.some request.body)
    match handler req with
    | HandlerOutcome.raises _ => Except.error "HandlerError"
    | HandlerOutcome.returns writes =>
      let st := runSink writes
      Except.ok
        [{ topic := "responses:" ++ sessionId ++ ":" ++ request.requestId,
           response := { status := st.1, body := st.2 } }]

/-- The publishes an invocation actually performed: a rejected invocation
published nothing. -/
def publishesOf : Except String (List Publish) → List Publish
  | Except.error _ => []
  | Except.ok l => l

/-- The session's relay loop: each delivered payload invokes
`handleMessage` independently; one message's rejection does not affect the
subscription or later messages. -/
def relayLoop (handler : FakeIncomingMessage → HandlerOutcome)
    (sessionId : String) (messages : List Payload) : List Publish :=
  messages.flatMap fun m => publishesOf (handleMessage handler sessionId m)

/-- One entry of the `servers` array. JavaScript compares entries by object
identity (`s !== server`); the model gives each constructed server a
distinct tag so that structural equality coincides with identity. -/
structure ServerEntry where
  sessionId : String
  tag : Nat
deriving Repr, DecidableEq

/-- Registration of a session, from `servers.push(server)`: unconditionally
append the new server to the array. -/
def registerServer (servers : List ServerEntry) (s : ServerEntry) :
    List ServerEntry :=
  servers ++ [s]

/-- Removal of a session, from
`servers = servers.filter((s) => s !== server)`: keep every entry other
than the given one. -/
def removeServer (servers : List ServerEntry) (s : ServerEntry) :
    List ServerEntry :=
  servers.filter fun x => x != s

/-- One observable effect of the HTTP handler: broker operations, timer
operations, and writes to the live response object. -/
inductive Effect where
  | subscribe (topic : String)
  | unsubscribe (topic : String)
  | publish (topic : String) (payload : Payload)
  | setTimeout (ms : Nat)
  | clearTimeout
  | clearInterval
  | setStatus (code : Nat)
  | endRes (body : String)
  | handleMcpPost
  | startSseSession
deriving Repr, DecidableEq

/-- The outbound wait timeout: `setTimeout(..., 10 * 1000)`. -/
def timeoutMs : Nat := 10 * 1000

/-- The JSON-RPC error body written by the 405 branches of `/mcp`. -/
def methodNotAllowedJson : String :=
  "\x7b\"jsonrpc\":\"2.0\",\"error\":\x7b\"code\":-32000,\"message\":\"Method not allowed.\"\x7d,\"id\":null\x7d"

/-- The `/message` branch of `mcpApiHandler`: with an empty session id
(absent query parameter collapses to the empty string via
`url.searchParams.get("sessionId") || ""`) respond 400 and stop;
otherwise subscribe to `responses:{sessionId}:{requestId}`, then publish
the serialized relayed message to `requests:{sessionId}`, then arm the
10-second timeout. The fresh `crypto.randomUUID()` request id is modelled
as the `requestId` argument. -/
def messageBranch (sessionId requestId reqUrl reqMethod body : String)
    (headers : List (String × String)) : List Effect :=
  if sessionId = "" then
    [Effect.setStatus 400, Effect.endRes "No sessionId provided"]
  else
    [Effect.subscribe ("responses:" ++ sessionId ++ ":" ++ requestId),
     Effect.publish ("requests:" ++ sessionId)
       (Payload.json
         { requestId := requestId, url := reqUrl, method := reqMethod,
           body := body, headers := headers }),
     Effect.setTimeout timeoutMs]

/-- `url.searchParams.get(key)`: the first query pair with the given key,
if any. -/
def lookupQuery (query : List (String × String)) (key : String) :
    Option String :=
  (query.find? fun p => p.1 = key).map fun p => p.2

/-- Route dispatch of `mcpApiHandler`: `/mcp` rejects GET and DELETE with
405 and otherwise hands the request to the stateless transport; `/sse`
starts a session; `/message` runs the outbound-relay branch with the
session id read from the query string (missing collapses to the empty
string); every other path responds 404. -/
def mcpApiHandler (method path : String) (query : List (String × String))
    (requestId reqUrl body : String) (headers : List (String × String)) :
    List Effect :=
  if path = "/mcp" then
    if method = "GET" then
      [Effect.setStatus 405, Effect.endRes methodNotAllowedJson]
    else if method = "DELETE" then
      [Effect.setStatus 405, Effect.endRes methodNotAllowedJson]
    else
      [Effect.handleMcpPost]
  else if path = "/sse" then
    [Effect.startSseSession]
  else if path = "/message" then
    messageBranch ((lookupQuery query "sessionId").getD "") requestId
      reqUrl method body headers
  else
    [Effect.setStatus 404, Effect.endRes "Not found"]

/-- Scans a trace and checks that every publish to `pubTopic` is preceded
by an earlier subscribe to `subTopic`; `seen` records whether the
subscribe has already occurred. -/
def subPrecedesPub (subTopic pubTopic : String) :
    List Effect → Bool → Bool
  | [], _ => true
  | e :: rest, seen =>
    match e with
    | Effect.subscribe t =>
        subPrecedesPub subTopic pubTopic rest (seen || t == subTopic)
    | Effect.publish t _ =>
        (t != pubTopic || seen) && subPrecedesPub subTopic pubTopic rest seen
    | _ => subPrecedesPub subTopic pubTopic rest seen

/-- Whether a trace performs any broker publish or subscribe. -/
def hasPublishOrSubscribe (trace : List Effect) : Bool :=
  trace.any fun e =>
    match e with
    | Effect.publish _ _ => true
    | Effect.subscribe _ => true
    | _ => false

/-- One event delivered to the `/message` branch's waiting state by the
event loop: the response-subscription callback firing with a decoded
response, the 10-second timeout callback firing, or the response object's
close handler firing. -/
inductive WaitEvent where
  | responseArrives (r : RelayedResponse)
  | timeoutFires
  | resClose
deriving Repr, DecidableEq

/-- State of one `/message` request's wait: whether the
`responses:{sessionId}:{requestId}` subscription is still held, whether
the timeout timer is still armed, whether a timeout write and a response
write have happened, every `(statusCode, body)` pair written to the live
response, and how many times the subscription transitioned from held to
released. -/
structure WaitState where
  subscribed : Bool
  armed : Bool
  timedOut : Bool
  responded : Bool
  resWrites : List (Nat × String)
  releases : Nat
deriving Repr, DecidableEq

/-- After subscribing, publishing and arming the timer the wait begins
subscribed with the timer armed and nothing written. -/
def initWait : WaitState :=
  { subscribed := true, armed := true, timedOut := false,
    responded := false, resWrites := [], releases := 0 }

/-- One atomic event-loop callback of the `/message` wait.
The subscription callback (delivered only while subscribed) runs
`clearTimeout(timeout)` then writes the decoded status and body.
The timeout callback (only if still armed) unsubscribes then writes 408
with body `Request timed out`.
The close handler runs `clearTimeout` and unsubscribes. -/
def stepWait (st : WaitState) : WaitEvent → WaitState
  | WaitEvent.responseArrives r =>
    if st.subscribed then
      { st with
          armed := false
          responded := true
          resWrites := st.resWrites ++ [(r.status, r.body)] }
    else st
  | WaitEvent.timeoutFires =>
    if st.armed then
      { st with
          subscribed := false
          armed := false
          timedOut := true
          resWrites := st.resWrites ++ [(408, "Request timed out")]
          releases := st.releases + (if st.subscribed then 1 else 0) }
    else st
  | WaitEvent.resClose =>
    { st with
        subscribed := false
        armed := false
        releases := st.releases + (if st.subscribed then 1 else 0) }

/-- The wait after a sequence of event-loop callbacks. -/
def runWait (events : List WaitEvent) : WaitState :=
  events.foldl stepWait initWait

/-- Inductive invariant of the `/message` wait. -/
def WaitInv (st : WaitState) : Prop :=
  (st.armed = true → st.subscribed = true)
  ∧ (st.timedOut = true → st.subscribed = false)
  ∧ (st.responded = true → st.armed = false)
  ∧ ¬(st.timedOut = true ∧ st.responded = true)
  ∧ (st.subscribed = true → st.releases = 0)
  ∧ (st.subscribed = false → st.releases = 1)

/-- One trigger that can reach an open `/sse` session: the deadline timer
elapsing, the client disconnecting the request stream, or the protocol
handler signalling closure via `server.server.onclose`. -/
inductive SessTrigger where
  | deadline
  | clientClose
  | handlerClose
deriving Repr, DecidableEq

/-- State of one `/sse` session's lifecycle: the single-resolution promise
cell behind `waitPromise` (holding the close reason once resolved) and the
`servers` array together with this session's own entry. -/
structure SessState where
  resolvedReason : Option String
  registry : List ServerEntry
  self : ServerEntry
deriving Repr, DecidableEq

/-- `resolveTimeout` resolves the promise: a promise resolves at most
once, so only the first call stores its reason. -/
def resolveCell (cell : Option String) (reason : String) : Option String :=
  match cell with
  | Option.some r => Option.some r
  | Option.none => Option.some reason

/-- One lifecycle trigger firing. The deadline timer resolves the cell
with reason `max duration reached`; the client-close handler resolves it
with `client hang up`; `server.server.onclose` only filters this server
out of the `servers` array and does not touch the cell. -/
def applySessTrigger (st : SessState) : SessTrigger → SessState
  | SessTrigger.deadline =>
    { st with resolvedReason := resolveCell st.resolvedReason "max duration reached" }
  | SessTrigger.clientClose =>
    { st with resolvedReason := resolveCell st.resolvedReason "client hang up" }
  | SessTrigger.handlerClose =>
    { st with registry := removeServer st.registry st.self }

/-- The session state after a sequence of triggers. -/
def runSessTriggers (st : SessState) (ts : List SessTrigger) : SessState :=
  ts.foldl applySessTrigger st

/-- The close reason a trigger resolves the cell with, for the two
triggers that do resolve it. -/
def triggerReason : SessTrigger → String
  | SessTrigger.deadline => "max duration reached"
  | SessTrigger.clientClose => "client hang up"
  | SessTrigger.handlerClose => ""

/-- The handler body awaits `waitPromise` once and then runs `cleanup()`
once: the cleanup sequence executes exactly once if the cell ever
resolves, and never otherwise. -/
def cleanupRuns (init : SessState) (ts : List SessTrigger) : Nat :=
  if (runSessTriggers init ts).resolvedReason.isSome then 1 else 0

/-- The body of `cleanup()`: cancel the deadline timer, cancel the
log-flush interval, unsubscribe from `requests:{sessionId}`, finalize the
stream with status 200. -/
def cleanupSequence (sessionId : String) : List Effect :=
  [Effect.clearTimeout, Effect.clearInterval,
   Effect.unsubscribe ("requests:" ++ sessionId),
   Effect.setStatus 200, Effect.endRes ""]

/-- A concrete serialized request used by the witness theorems. -/
def sampleRequest : SerializedRequest :=
  { requestId := "r1", url := "/u", method := "POST", body := "b", headers := [] }

/-- A concrete server entry used by the witness theorems. -/
def sampleServer : ServerEntry := { sessionId := "s", tag := 0 }

/-- The session state right after `server.connect(transport)`: the promise
cell unresolved and the session registered. -/
def initialSessState (s : ServerEntry) : SessState :=
  { resolvedReason := Option.none, registry := [s], self := s }

/-- Folding the sink from any starting pair records the last written status
and the last written body, with the starting pair as default. -/
theorem sinkStep_foldl (writes : List ResEvent) :
    ∀ a b, writes.foldl sinkStep (a, b) =
      (lastWith a (statusWrites writes), lastWith b (bodyWrites writes)) := by
  induction writes with
  | nil => intro a b; rfl
  | cons e rest ih =>
    intro a b
    cases e with
    | writeHead n =>
      simp [sinkStep, statusWrites, bodyWrites, List.filterMap_cons,
        lastWith, ih n b, statusWrites, bodyWrites]
    | endBody s =>
      simp [sinkStep, statusWrites, bodyWrites, List.filterMap_cons,
        lastWith, ih a s, statusWrites, bodyWrites]

/-- The sink's final pair is the last status and last body written, with
defaults 100 and the empty string. -/
theorem runSink_eq (writes : List ResEvent) :
    runSink writes = (lastStatus writes, lastBody writes) := by
  simpa [runSink, lastStatus, lastBody] using sinkStep_foldl writes 100 ""

/-- C1: for every relayed message that a subscribed session's message
handler receives and successfully decodes, exactly one relayed response is
published, on topic `responses:{sessionId}:{requestId}` with the requestId
taken from the message, carrying the last status and last body the
protocol handler wrote to the synthetic response sink; if the handler
invocation raises, no response is published for that message. -/
theorem C1_one_response_per_decoded_message
    (handler : FakeIncomingMessage → HandlerOutcome) (sid : String)
    (r : SerializedRequest) :
    (∀ writes,
      handler (createFakeIncomingMessage r.method r.url r.headers
          (Option.some r.body)) = HandlerOutcome.returns writes →
      publishesOf (handleMessage handler sid (Payload.json r)) =
        [{ topic := "responses:" ++ sid ++ ":" ++ r.requestId,
           response := { status := lastStatus writes, body := lastBody writes } }])
    ∧ (∀ writes,
      handler (createFakeIncomingMessage r.method r.url r.headers
          (Option.some r.body)) = HandlerOutcome.raises writes →
      publishesOf (handleMessage handler sid (Payload.json r)) = []) := by
  constructor
  · intro writes h
    simp [handleMessage, decodePayload, publishesOf, h, runSink_eq]
  · intro writes h
    simp [handleMessage, decodePayload, publishesOf, h]

/-- C1 witness: a concrete handler writing status 200 and body `ok`
publishes exactly one response on `responses:s:r1` carrying them. -/
theorem C1_one_response_per_decoded_message_witness :
    (fun _ => HandlerOutcome.returns [ResEvent.writeHead 200, ResEvent.endBody "ok"])
        (createFakeIncomingMessage "POST" "/u" [] (Option.some "b"))
      = HandlerOutcome.returns [ResEvent.writeHead 200, ResEvent.endBody "ok"]
    ∧ publishesOf (handleMessage
        (fun _ => HandlerOutcome.returns [ResEvent.writeHead 200, ResEvent.endBody "ok"])
        "s" (Payload.json sampleRequest)) =
      [{ topic := "responses:s:r1", response := { status := 200, body := "ok" } }] := by
  refine ⟨rfl, ?_⟩
  have h := (C1_one_response_per_decoded_message
    (fun _ => HandlerOutcome.returns [ResEvent.writeHead 200, ResEvent.endBody "ok"])
    "s" sampleRequest).1
    [ResEvent.writeHead 200, ResEvent.endBody "ok"] rfl
  rw [h]
  decide

/-- C10: for every decoded relayed message whose handling completes
without the protocol handler ever calling the status write or the body
write on the synthetic response sink, the relayed response published to
`responses:{sessionId}:{requestId}` has status 100 and an empty-string
body. -/
theorem C10_default_status_100_empty_body
    (handler : FakeIncomingMessage → HandlerOutcome) (sid : String)
    (r : SerializedRequest)
    (h : handler (createFakeIncomingMessage r.method r.url r.headers
        (Option.some r.body)) = HandlerOutcome.returns []) :
    publishesOf (handleMessage handler sid (Payload.json r)) =
      [{ topic := "responses:" ++ sid ++ ":" ++ r.requestId,
         response := { status := 100, body := "" } }] := by
  simp [handleMessage, decodePayload, publishesOf, h, runSink]

/-- C10 witness: a handler that makes no sink calls yields the 100 and
empty-body response at a concrete message. -/
theorem C10_default_status_100_empty_body_witness :
    (fun _ => HandlerOutcome.returns [])
        (createFakeIncomingMessage "POST" "/u" [] (Option.some "b"))
      = HandlerOutcome.returns []
    ∧ publishesOf (handleMessage (fun _ => HandlerOutcome.returns []) "s"
        (Payload.json sampleRequest)) =
      [{ topic := "responses:s:r1", response := { status := 100, body := "" } }] := by
  refine ⟨rfl, ?_⟩
  have h := C10_default_status_100_empty_body (fun _ => HandlerOutcome.returns [])
    "s" sampleRequest rfl
  rw [h]
  decide

/-- C5: a payload that fails to decode is dropped — the invocation rejects
with the decode error and publishes nothing, the session's relay loop is
unaffected, and a subsequently delivered well-formed message still
produces its correct response. -/
theorem C5_malformed_message_dropped
    (handler : FakeIncomingMessage → HandlerOutcome) (sid raw : String)
    (g : SerializedRequest) (writes : List ResEvent)
    (hg : handler (createFakeIncomingMessage g.method g.url g.headers
        (Option.some g.body)) = HandlerOutcome.returns writes) :
    publishesOf (handleMessage handler sid (Payload.malformed raw)) = []
    ∧ handleMessage handler sid (Payload.malformed raw) = Except.error "DecodeError"
    ∧ relayLoop handler sid [Payload.malformed raw, Payload.json g] =
        [{ topic := "responses:" ++ sid ++ ":" ++ g.requestId,
           response := { status := lastStatus writes, body := lastBody writes } }] := by
  refine ⟨rfl, rfl, ?_⟩
  simp [relayLoop, handleMessage, decodePayload, publishesOf, hg, runSink_eq]

/-- C5 witness: a malformed payload followed by a valid message at a
concrete handler produces only the valid message's correct response. -/
theorem C5_malformed_message_dropped_witness :
    (fun _ => HandlerOutcome.returns [ResEvent.writeHead 200, ResEvent.endBody "ok"])
        (createFakeIncomingMessage "POST" "/u" [] (Option.some "b"))
      = HandlerOutcome.returns [ResEvent.writeHead 200, ResEvent.endBody "ok"]
    ∧ relayLoop
        (fun _ => HandlerOutcome.returns [ResEvent.writeHead 200, ResEvent.endBody "ok"])
        "s" [Payload.malformed "not json", Payload.json sampleRequest] =
      [{ topic := "responses:s:r1", response := { status := 200, body := "ok" } }] := by
  refine ⟨rfl, ?_⟩
  have h := (C5_malformed_message_dropped
    (fun _ => HandlerOutcome.returns [ResEvent.writeHead 200, ResEvent.endBody "ok"])
    "s" "not json" sampleRequest
    [ResEvent.writeHead 200, ResEvent.endBody "ok"] rfl).2.2
  rw [h]
  decide

/-- C6 counterexample: at the concrete empty-string body, the synthetic
request's stream never signals end-of-stream (`if (body)` is false for the
empty string, so neither the body push nor `push(null)` happens), refuting
the claim that for every body — including the empty string — reading
yields the body followed by end-of-stream. -/
theorem C6_counterexample_empty_body :
    (createFakeIncomingMessage "POST" "/u" [] (Option.some "")).ended = false
    ∧ ¬ (streamContents (createFakeIncomingMessage "POST" "/u" []
          (Option.some "")) = ""
        ∧ (createFakeIncomingMessage "POST" "/u" [] (Option.some "")).ended = true) := by
  decide

/-- C6 amended: building the synthetic request always copies method, url
and headers exactly; when the body is a non-empty string the stream yields
exactly the body followed by end-of-stream; when the body is the empty
string (falsy in JavaScript) nothing is pushed and end-of-stream is never
signalled. -/
theorem C6_fake_message_fields_and_stream (m u b : String)
    (hs : List (String × String)) :
    (createFakeIncomingMessage m u hs (Option.some b)).method = m
    ∧ (createFakeIncomingMessage m u hs (Option.some b)).url = u
    ∧ (createFakeIncomingMessage m u hs (Option.some b)).headers = hs
    ∧ (b ≠ "" →
        (createFakeIncomingMessage m u hs (Option.some b)).chunks = [b]
        ∧ (createFakeIncomingMessage m u hs (Option.some b)).ended = true)
    ∧ (b = "" →
        (createFakeIncomingMessage m u hs (Option.some b)).chunks = []
        ∧ (createFakeIncomingMessage m u hs (Option.some b)).ended = false) := by
  by_cases hb : b = "" <;>
    simp [createFakeIncomingMessage, bodyTruthy, hb]

/-- C6 witness: with the non-empty body `hello` the stream holds exactly
the body and end-of-stream is signalled. -/
theorem C6_fake_message_fields_and_stream_witness :
    ("hello" : String) ≠ ""
    ∧ (createFakeIncomingMessage "POST" "/u" [] (Option.some "hello")).chunks = ["hello"]
    ∧ (createFakeIncomingMessage "POST" "/u" [] (Option.some "hello")).ended = true := by
  refine ⟨by decide, ?_, ?_⟩
  · exact ((C6_fake_message_fields_and_stream "POST" "/u" "hello" []).2.2.2.1
      (by decide)).1
  · exact ((C6_fake_message_fields_and_stream "POST" "/u" "hello" []).2.2.2.1
      (by decide)).2

/-- C9 counterexample: with an entry for session id `a` already present, a
second register with id `a` does not fail — it appends the new server, so
the registry changes and now holds two entries for the same id, refuting
the claim that registration fails when the id is already present. -/
theorem C9_counterexample_duplicate_register :
    registerServer [{ sessionId := "a", tag := 0 }] { sessionId := "a", tag := 1 }
      = [{ sessionId := "a", tag := 0 }, { sessionId := "a", tag := 1 }]
    ∧ registerServer [{ sessionId := "a", tag := 0 }] { sessionId := "a", tag := 1 }
      ≠ [{ sessionId := "a", tag := 0 }] := by
  decide

/-- C9 amended: register never fails — `servers.push` appends
unconditionally even when the session id is already present, but it does
not overwrite the live entry (every previous entry remains); remove
(`servers.filter`) is idempotent and removing an absent entry is a
no-op. -/
theorem C9_register_appends_remove_idempotent
    (st : List ServerEntry) (s : ServerEntry) :
    registerServer st s = st ++ [s]
    ∧ (∀ x, x ∈ st → x ∈ registerServer st s)
    ∧ removeServer (removeServer st s) s = removeServer st s
    ∧ (¬ s ∈ st → removeServer st s = st) := by
  refine ⟨rfl, ?_, ?_, ?_⟩
  · intro x hx
    exact List.mem_append_left _ hx
  · simp [removeServer, List.filter_filter]
  · intro hs
    apply List.filter_eq_self.mpr
    intro a ha
    simp only [bne_iff_ne, ne_eq]
    intro h
    exact hs (h ▸ ha)

/-- C9 amended witness: at a concrete registry not containing the entry,
removal is a no-op and registration appends. -/
theorem C9_register_appends_remove_idempotent_witness :
    ¬ ({ sessionId := "b", tag := 1 } : ServerEntry) ∈
        [({ sessionId := "a", tag := 0 } : ServerEntry)]
    ∧ removeServer [{ sessionId := "a", tag := 0 }] { sessionId := "b", tag := 1 }
      = [{ sessionId := "a", tag := 0 }] := by
  refine ⟨by decide, ?_⟩
  exact (C9_register_appends_remove_idempotent
    [{ sessionId := "a", tag := 0 }] { sessionId := "b", tag := 1 }).2.2.2 (by decide)

/-- C3: for every `/message` request with a non-empty session id, the
branch subscribes to `responses:{sessionId}:{requestId}` (with the freshly
generated request id), publishes the serialized relayed message to
`requests:{sessionId}`, and every publish to the requests topic in the
trace is preceded by the subscribe to the responses topic, so the
response subscription exists at the moment the request is published. -/
theorem C3_subscribe_before_publish (sid rid u m b : String)
    (hs : List (String × String)) (h : sid ≠ "") :
    Effect.subscribe ("responses:" ++ sid ++ ":" ++ rid)
        ∈ messageBranch sid rid u m b hs
    ∧ Effect.publish ("requests:" ++ sid)
        (Payload.json { requestId := rid, url := u, method := m,
                        body := b, headers := hs })
        ∈ messageBranch sid rid u m b hs
    ∧ subPrecedesPub ("responses:" ++ sid ++ ":" ++ rid) ("requests:" ++ sid)
        (messageBranch sid rid u m b hs) false = true := by
  simp [messageBranch, h, subPrecedesPub]

/-- C3 witness: the ordering holds at a concrete session id and request
id. -/
theorem C3_subscribe_before_publish_witness :
    ("s" : String) ≠ ""
    ∧ subPrecedesPub "responses:s:r1" "requests:s"
        (messageBranch "s" "r1" "/u" "POST" "b" []) false = true := by
  refine ⟨by decide, ?_⟩
  exact (C3_subscribe_before_publish "s" "r1" "/u" "POST" "b" [] (by decide)).2.2

/-- C8: a `/message` request carrying no sessionId query parameter gets
status 400 with no publish and no subscription; any path other than
`/mcp`, `/sse` and `/message` gets 404; GET and DELETE on the stream-only
`/mcp` route get 405. -/
theorem C8_error_routes (method path : String)
    (query : List (String × String)) (rid ru b : String)
    (hs : List (String × String)) :
    (path = "/message" → lookupQuery query "sessionId" = Option.none →
      mcpApiHandler method path query rid ru b hs =
        [Effect.setStatus 400, Effect.endRes "No sessionId provided"]
      ∧ hasPublishOrSubscribe (mcpApiHandler method path query rid ru b hs) = false)
    ∧ (path ≠ "/mcp" → path ≠ "/sse" → path ≠ "/message" →
      mcpApiHandler method path query rid ru b hs =
        [Effect.setStatus 404, Effect.endRes "Not found"])
    ∧ ((method = "GET" ∨ method = "DELETE") →
      mcpApiHandler method "/mcp" query rid ru b hs =
        [Effect.setStatus 405, Effect.endRes methodNotAllowedJson]) := by
  refine ⟨?_, ?_, ?_⟩
  · intro hp hq
    subst hp
    constructor <;>
      simp [mcpApiHandler, messageBranch, hq, hasPublishOrSubscribe]
  · intro h1 h2 h3
    simp [mcpApiHandler, h1, h2, h3]
  · rintro (hm | hm) <;> subst hm <;> simp [mcpApiHandler]

/-- C8 witness: the 400, 404 and 405 branches at concrete requests. -/
theorem C8_error_routes_witness :
    mcpApiHandler "POST" "/message" [] "r1" "/u" "b" [] =
      [Effect.setStatus 400, Effect.endRes "No sessionId provided"]
    ∧ mcpApiHandler "POST" "/other" [] "r1" "/u" "b" [] =
      [Effect.setStatus 404, Effect.endRes "Not found"]
    ∧ mcpApiHandler "GET" "/mcp" [] "r1" "/u" "b" [] =
      [Effect.setStatus 405, Effect.endRes methodNotAllowedJson] := by
  refine ⟨?_, ?_, ?_⟩
  · exact ((C8_error_routes "POST" "/message" [] "r1" "/u" "b" []).1 rfl rfl).1
  · exact (C8_error_routes "POST" "/other" [] "r1" "/u" "b" []).2.1
      (by decide) (by decide) (by decide)
  · exact (C8_error_routes "GET" "/mcp" [] "r1" "/u" "b" []).2.2 (Or.inl rfl)

/-- Unfolding one trigger of the session run. -/
theorem runSessTriggers_cons (st : SessState) (t : SessTrigger)
    (rest : List SessTrigger) :
    runSessTriggers st (t :: rest) = runSessTriggers (applySessTrigger st t) rest := rfl

/-- Once the promise cell is resolved, no later trigger changes it. -/
theorem resolvedReason_stable (x : String) (ts : List SessTrigger) :
    ∀ st : SessState, st.resolvedReason = Option.some x →
      (runSessTriggers st ts).resolvedReason = Option.some x := by
  induction ts with
  | nil => intro st h; exact h
  | cons t rest ih =>
    intro st h
    rw [runSessTriggers_cons]
    apply ih
    cases t <;> simp [applySessTrigger, resolveCell, h]

/-- C2: for every session, at most one cleanup sequence executes even when
the deadline timer and the client-disconnect signal race — the first
trigger resolves the single-resolution promise cell and wins, later
triggers are no-ops, the awaited handler body then runs `cleanup()`
exactly once, and the cleanup sequence cancels the deadline timer, cancels
the log-flush interval, unsubscribes from `requests:{sessionId}` and
finalizes the stream with a terminal 200 status. -/
theorem C2_cleanup_at_most_once (sid : String) (s : ServerEntry)
    (t : SessTrigger) (rest : List SessTrigger)
    (ht : t = SessTrigger.deadline ∨ t = SessTrigger.clientClose) :
    cleanupRuns { resolvedReason := Option.none, registry := [s], self := s }
        (t :: rest) = 1
    ∧ (runSessTriggers { resolvedReason := Option.none, registry := [s], self := s }
        (t :: rest)).resolvedReason = Option.some (triggerReason t)
    ∧ (∀ more, (runSessTriggers (runSessTriggers
        { resolvedReason := Option.none, registry := [s], self := s } (t :: rest))
          more).resolvedReason
        = (runSessTriggers { resolvedReason := Option.none, registry := [s], self := s }
            (t :: rest)).resolvedReason)
    ∧ (∀ ts, cleanupRuns { resolvedReason := Option.none, registry := [s], self := s }
        ts ≤ 1)
    ∧ cleanupSequence sid =
        [Effect.clearTimeout, Effect.clearInterval,
         Effect.unsubscribe ("requests:" ++ sid),
         Effect.setStatus 200, Effect.endRes ""] := by
  have hres : (runSessTriggers
      { resolvedReason := Option.none, registry := [s], self := s }
      (t :: rest)).resolvedReason = Option.some (triggerReason t) := by
    rw [runSessTriggers_cons]
    apply resolvedReason_stable
    rcases ht with h | h <;> subst h <;> rfl
  refine ⟨?_, hres, ?_, ?_, rfl⟩
  · simp [cleanupRuns, hres]
  · intro more
    rw [resolvedReason_stable (triggerReason t) more _ hres, hres]
  · intro ts
    cases h : (runSessTriggers
        { resolvedReason := Option.none, registry := [s], self := s }
        ts).resolvedReason.isSome <;> simp [cleanupRuns, h]

/-- C2 witness: a deadline firing first followed by a racing client
disconnect runs cleanup exactly once. -/
theorem C2_cleanup_at_most_once_witness :
    (SessTrigger.deadline = SessTrigger.deadline
      ∨ SessTrigger.deadline = SessTrigger.clientClose)
    ∧ cleanupRuns (initialSessState sampleServer)
        [SessTrigger.deadline, SessTrigger.clientClose] = 1 := by
  refine ⟨Or.inl rfl, ?_⟩
  exact (C2_cleanup_at_most_once "s" sampleServer
    SessTrigger.deadline [SessTrigger.clientClose] (Or.inl rfl)).1

/-- C7 counterexample: when the protocol handler signals its own closure
first and nothing else fires, the promise cell stays unresolved and no
cleanup sequence runs — `server.server.onclose` only filters the server
out of the `servers` array — refuting the claim that each of the three
triggers, occurring first, initiates cleanup. -/
theorem C7_counterexample_handler_close :
    cleanupRuns (initialSessState sampleServer) [SessTrigger.handlerClose] = 0
    ∧ (runSessTriggers (initialSessState sampleServer)
        [SessTrigger.handlerClose]).resolvedReason = Option.none
    ∧ (runSessTriggers (initialSessState sampleServer)
        [SessTrigger.handlerClose]).registry = [] := by
  decide

/-- C7 amended: the cleanup sequence is initiated by whichever of the
deadline timer and the client disconnect fires first; the protocol
handler signalling its own closure does not initiate cleanup — it only
removes the session's server from the registry. -/
theorem C7_two_triggers_initiate_cleanup (s : ServerEntry)
    (rest : List SessTrigger) :
    cleanupRuns { resolvedReason := Option.none, registry := [s], self := s }
        (SessTrigger.deadline :: rest) = 1
    ∧ (runSessTriggers { resolvedReason := Option.none, registry := [s], self := s }
        (SessTrigger.deadline :: rest)).resolvedReason
        = Option.some "max duration reached"
    ∧ cleanupRuns { resolvedReason := Option.none, registry := [s], self := s }
        (SessTrigger.clientClose :: rest) = 1
    ∧ (runSessTriggers { resolvedReason := Option.none, registry := [s], self := s }
        (SessTrigger.clientClose :: rest)).resolvedReason
        = Option.some "client hang up"
    ∧ (applySessTrigger { resolvedReason := Option.none, registry := [s], self := s }
        SessTrigger.handlerClose).resolvedReason = Option.none
    ∧ (applySessTrigger { resolvedReason := Option.none, registry := [s], self := s }
        SessTrigger.handlerClose).registry = [] := by
  have h1 : (runSessTriggers
      { resolvedReason := Option.none, registry := [s], self := s }
      (SessTrigger.deadline :: rest)).resolvedReason
      = Option.some "max duration reached" := by
    rw [runSessTriggers_cons]
    apply resolvedReason_stable
    rfl
  have h2 : (runSessTriggers
      { resolvedReason := Option.none, registry := [s], self := s }
      (SessTrigger.clientClose :: rest)).resolvedReason
      = Option.some "client hang up" := by
    rw [runSessTriggers_cons]
    apply resolvedReason_stable
    rfl
  refine ⟨by simp [cleanupRuns, h1], h1, by simp [cleanupRuns, h2], h2, rfl, ?_⟩
  simp [applySessTrigger, removeServer]

/-- One event-loop callback preserves the wait invariant. -/
theorem waitInv_step (st : WaitState) (e : WaitEvent) (h : WaitInv st) :
    WaitInv (stepWait st e) := by
  obtain ⟨sub, arm, tmo, rsp, writes, rel⟩ := st
  cases e <;> cases sub <;> cases arm <;> cases tmo <;> cases rsp <;>
    simp_all [stepWait, WaitInv]

/-- The wait invariant holds after any sequence of callbacks from an
invariant state. -/
theorem waitInv_run (events : List WaitEvent) :
    ∀ st : WaitState, WaitInv st → WaitInv (events.foldl stepWait st) := by
  induction events with
  | nil => intro st h; exact h
  | cons e rest ih =>
    intro st h
    exact ih (stepWait st e) (waitInv_step st e h)

/-- The initial wait state satisfies the invariant. -/
theorem waitInv_init : WaitInv initWait := by
  simp [WaitInv, initWait]

/-- Once the subscription is released it is never re-acquired. -/
theorem subscribed_false_stable (events : List WaitEvent) :
    ∀ st : WaitState, st.subscribed = false →
      (events.foldl stepWait st).subscribed = false := by
  induction events with
  | nil => intro st h; exact h
  | cons e rest ih =>
    intro st h
    apply ih
    cases e with
    | responseArrives r => simp [stepWait, h]
    | timeoutFires =>
      by_cases ha : st.armed = true <;> simp [stepWait, ha, h]
    | resClose => simp [stepWait]

/-- From an invariant state whose subscription is already released, any
further callbacks leave the release count at one. -/
theorem releases_after_released (events : List WaitEvent) (st : WaitState)
    (hInv : WaitInv st) (hsub : st.subscribed = false) :
    (events.foldl stepWait st).releases = 1 := by
  have h1 := waitInv_run events st hInv
  have h2 := subscribed_false_stable events st hsub
  exact h1.2.2.2.2.2 h2

/-- If the close handler runs at some point, the final release count is
exactly one. -/
theorem releases_after_close (events : List WaitEvent) :
    ∀ st : WaitState, WaitInv st → WaitEvent.resClose ∈ events →
      (events.foldl stepWait st).releases = 1 := by
  induction events with
  | nil => intro st _ hmem; cases hmem
  | cons e rest ih =>
    intro st hInv hmem
    rcases List.mem_cons.mp hmem with he | he
    · have hcl : e = WaitEvent.resClose := he.symm
      subst hcl
      have h1 : WaitInv (stepWait st WaitEvent.resClose) :=
        waitInv_step st WaitEvent.resClose hInv
      have h2 : (stepWait st WaitEvent.resClose).subscribed = false := by
        simp [stepWait]
      simpa using releases_after_released rest _ h1 h2
    · exact ih (stepWait st e) (waitInv_step st e hInv) he

/-- C4: a caller never observes both a relayed response and a timeout (the
response callback clears the timer; the timeout callback unsubscribes
first); whenever the response object closes — normal completion or after
a timeout — the subscription has been released exactly once; a firing of
the armed 10-second timeout writes exactly 408 with body
`Request timed out` and releases the subscription; and the timeout window
is `10 * 1000` milliseconds. -/
theorem C4_timeout_never_with_response (events : List WaitEvent) :
    ¬((runWait events).timedOut = true ∧ (runWait events).responded = true)
    ∧ (WaitEvent.resClose ∈ events → (runWait events).releases = 1)
    ∧ runWait [WaitEvent.timeoutFires] =
        { subscribed := false, armed := false, timedOut := true,
          responded := false, resWrites := [(408, "Request timed out")],
          releases := 1 }
    ∧ timeoutMs = 10000 := by
  refine ⟨?_, ?_, rfl, rfl⟩
  · exact (waitInv_run events initWait waitInv_init).2.2.2.1
  · intro hmem
    exact releases_after_close events initWait waitInv_init hmem

/-- C4 witness: after a response arrives and the response object closes,
the subscription was released exactly once and no timeout was observed. -/
theorem C4_timeout_never_with_response_witness :
    WaitEvent.resClose ∈
        [WaitEvent.responseArrives { status := 200, body := "ok" },
         WaitEvent.resClose]
    ∧ (runWait [WaitEvent.responseArrives { status := 200, body := "ok" },
        WaitEvent.resClose]).releases = 1 := by
  refine ⟨by decide, ?_⟩
  exact (C4_timeout_never_with_response
    [WaitEvent.responseArrives { status := 200, body := "ok" },
     WaitEvent.resClose]).2.1 (by decide)
